import Mathlib

/-
Verification of the energy-monitoring pipeline in src/s.py: the metrics to
power to emissions derivation, the bounded rolling history kept by the main
loop, and the threshold-based anomaly flag.  Real numbers are modelled by
rationals; the Python builtin round (banker rounding, round half to even)
is modelled exactly on rationals.
-/

/-- Python round(x) to the nearest integer, ties to even, on rationals. -/
def pythonRound (x : ℚ) : ℤ :=
  let f : ℤ := ⌊x⌋
  if x - f < 1 / 2 then f
  else if x - f > 1 / 2 then f + 1
  else if f % 2 = 0 then f else f + 1

/-- Python round(x, n): round to n decimal places, ties to even. -/
def roundTo (n : ℕ) (x : ℚ) : ℚ :=
  (pythonRound (x * 10 ^ n) : ℚ) / 10 ^ n

/-- src/s.py line 12: grid emission factor in gCO2 per kWh. -/
def GRID_EMISSION_FACTOR : ℚ := 400

/-- src/s.py line 13: power usage effectiveness for cloud data centers. -/
def PUE_CLOUD : ℚ := 1.2

/-- The metrics snapshot returned by SystemMonitor.get_system_metrics
(src/s.py lines 67-79).  cpu_freq is optional: psutil may give None. -/
structure Metrics where
  timestamp : String
  cpu_usage : ℚ
  cpu_freq : Option ℚ
  memory_used : ℚ
  memory_total : ℚ
  memory_percent : ℚ
  disk_used : ℚ
  disk_total : ℚ
  disk_percent : ℚ
  network_sent : ℚ
  network_recv : ℚ
deriving DecidableEq, Repr

/-- The dict returned by SystemMonitor.calculate_power (src/s.py 99-106). -/
structure Power where
  cpu : ℚ
  memory : ℚ
  disk : ℚ
  total_it : ℚ
  total_facility : ℚ
  pue : ℚ
deriving DecidableEq, Repr

/-- src/s.py line 92, the frequency factor: metrics["cpu_freq"]/1000 if
metrics["cpu_freq"] else 2.5.  Python truthiness makes both None and 0
fall back to 2.5 GHz. -/
def freq_ghz (m : Metrics) : ℚ :=
  match m.cpu_freq with
  | none => 2.5
  | some f => if f = 0 then 2.5 else f / 1000

/-- src/s.py line 92: cpu_power = (cpu_usage/100) * freq_ghz * 15. -/
def cpu_power_raw (m : Metrics) : ℚ :=
  (m.cpu_usage / 100) * freq_ghz m * 15

/-- src/s.py line 93: mem_power = memory_used * 0.3. -/
def mem_power_raw (m : Metrics) : ℚ :=
  m.memory_used * 0.3

/-- src/s.py line 94: disk_power = 5 if disk_percent > 50 else 2. -/
def disk_power_raw (m : Metrics) : ℚ :=
  if m.disk_percent > 50 then 5 else 2

/-- src/s.py line 96: total_it_power = cpu_power + mem_power + disk_power. -/
def total_it_raw (m : Metrics) : ℚ :=
  cpu_power_raw m + mem_power_raw m + disk_power_raw m

/-- src/s.py line 97: total_power = total_it_power * PUE_CLOUD. -/
def total_facility_raw (m : Metrics) : ℚ :=
  total_it_raw m * PUE_CLOUD

/-- SystemMonitor.calculate_power, src/s.py lines 85-106: the returned dict,
every component rounded to one decimal place. -/
def calculate_power (m : Metrics) : Power :=
  { cpu := roundTo 1 (cpu_power_raw m)
    memory := roundTo 1 (mem_power_raw m)
    disk := roundTo 1 (disk_power_raw m)
    total_it := roundTo 1 (total_it_raw m)
    total_facility := roundTo 1 (total_facility_raw m)
    pue := PUE_CLOUD }

/-- The dict returned by SystemMonitor.calculate_emissions (src/s.py 119-123). -/
structure Emissions where
  hourly : ℚ
  daily : ℚ
  annual : ℚ
deriving DecidableEq, Repr

/-- src/s.py line 118: hourly_co2 = (power_w / 1000) * GRID_EMISSION_FACTOR. -/
def hourly_co2 (power_w : ℚ) : ℚ :=
  power_w / 1000 * GRID_EMISSION_FACTOR

/-- SystemMonitor.calculate_emissions, src/s.py lines 112-126.  The caller in
main passes power["total_facility"] if power else None, so the input is an
optional float; the guard `if not power_w` in Python is true for None and
for 0, and then the function returns None. -/
def calculate_emissions (power_w : Option ℚ) : Option Emissions :=
  match power_w with
  | none => none
  | some w =>
    if w = 0 then none
    else
      some { hourly := roundTo 1 (hourly_co2 w)
             daily := roundTo 2 (hourly_co2 w * 24 / 1000)
             annual := roundTo 3 (hourly_co2 w * 24 * 365 / 1000000) }

/-- One row of st.session_state.metrics_history (src/s.py lines 164-168,
213-222): the retained subset of the snapshot plus the power figures the
code stores, taken from the rounded calculate_power dict. -/
structure Row where
  timestamp : String
  cpu_usage : ℚ
  memory_percent : ℚ
  disk_percent : ℚ
  cpu_power : ℚ
  mem_power : ℚ
  disk_power : ℚ
  total_power : ℚ
deriving DecidableEq, Repr

/-- src/s.py lines 213-222: new_row built from the snapshot and the power
dict; the power entries are the rounded fields of calculate_power. -/
def makeRow (m : Metrics) (p : Power) : Row :=
  { timestamp := m.timestamp
    cpu_usage := m.cpu_usage
    memory_percent := m.memory_percent
    disk_percent := m.disk_percent
    cpu_power := p.cpu
    mem_power := p.memory
    disk_power := p.disk
    total_power := p.total_facility }

/-- src/s.py line 227: history capacity, pd.concat(...).tail(60). -/
def HISTORY_CAPACITY : ℕ := 60

/-- src/s.py lines 224-227: append the new row and keep the last 60 rows
(DataFrame.tail keeps the trailing rows, evicting the oldest). -/
def appendHist (h : List Row) (r : Row) : List Row :=
  let l := h ++ [r]
  l.drop (l.length - HISTORY_CAPACITY)

/-- src/s.py line 261: metrics_history["total_power"].mean(), the arithmetic
mean of the stored total_power column. -/
def meanTotalPower (h : List Row) : ℚ :=
  (h.map Row.total_power).sum / h.length

/-- src/s.py lines 260-272: the anomaly alert is shown only when more than
10 rows are retained and current_power > avg_power * 1.3. -/
def anomalyFlag (h : List Row) (current : ℚ) : Bool :=
  if 10 < h.length then decide (meanTotalPower h * 1.3 < current) else false

/-- One tick of the main loop history/anomaly path (src/s.py lines 208-272):
compute power, build the row, append it to the history (line 224), then run
the anomaly test on the updated history against the rounded facility power. -/
def tick (h : List Row) (m : Metrics) : List Row × Bool :=
  let power := calculate_power m
  let row := makeRow m power
  let h2 := appendHist h row
  (h2, anomalyFlag h2 power.total_facility)

/-- The concrete snapshot of the end-to-end scenario: cpu at 50 percent,
frequency 2000 MHz, 4 GB memory used at 25 percent, disk idle. -/
def scenarioMetrics : Metrics :=
  { timestamp := "00:00:00"
    cpu_usage := 50
    cpu_freq := some 2000
    memory_used := 4
    memory_total := 16
    memory_percent := 25
    disk_used := 10
    disk_total := 100
    disk_percent := 25
    network_sent := 0
    network_recv := 0 }

lemma le_pythonRound (x : ℚ) : ⌊x⌋ ≤ pythonRound x := by
  simp only [pythonRound]
  split_ifs <;> omega

lemma pythonRound_le (x : ℚ) : pythonRound x ≤ ⌊x⌋ + 1 := by
  simp only [pythonRound]
  split_ifs <;> omega

lemma pythonRound_mono {x y : ℚ} (h : x ≤ y) : pythonRound x ≤ pythonRound y := by
  rcases lt_or_eq_of_le (Int.floor_le_floor h) with hf | hf
  · calc pythonRound x ≤ ⌊x⌋ + 1 := pythonRound_le x
      _ ≤ ⌊y⌋ := by omega
      _ ≤ pythonRound y := le_pythonRound y
  · simp only [pythonRound, ← hf]
    split_ifs <;> first | omega | (exfalso; linarith)

lemma roundTo_mono (n : ℕ) {x y : ℚ} (h : x ≤ y) : roundTo n x ≤ roundTo n y := by
  unfold roundTo
  have h10 : (0 : ℚ) < 10 ^ n := by positivity
  have hm : x * 10 ^ n ≤ y * 10 ^ n := mul_le_mul_of_nonneg_right h (le_of_lt h10)
  exact (div_le_div_iff_of_pos_right h10).mpr (Int.cast_le.mpr (pythonRound_mono hm))

lemma length_appendHist (h : List Row) (r : Row) :
    (appendHist h r).length = min (h.length + 1) 60 := by
  simp [appendHist, HISTORY_CAPACITY]
  omega

lemma appendHist_eq (h : List Row) (r : Row) :
    appendHist h r = (h ++ [r]).drop (h.length + 1 - 60) := by
  simp [appendHist, HISTORY_CAPACITY]

lemma mem_appendHist (h : List Row) (r : Row) : r ∈ appendHist h r := by
  rw [appendHist_eq]
  rw [List.drop_append_of_le_length (by omega)]
  simp

lemma foldl_appendHist (rs : List Row) : ∀ h : List Row, h.length ≤ 60 →
    rs.foldl appendHist h = (h ++ rs).drop ((h ++ rs).length - 60) := by
  induction rs with
  | nil =>
    intro h hh
    simp only [List.foldl_nil, List.append_nil]
    rw [Nat.sub_eq_zero_of_le hh, List.drop_zero]
  | cons r rs ih =>
    intro h hh
    have hk : h.length + 1 - 60 ≤ (h ++ [r]).length := by
      simp only [List.length_append, List.length_singleton]
      omega
    rw [List.foldl_cons, ih _ (by rw [length_appendHist]; omega), appendHist_eq]
    rw [← List.drop_append_of_le_length hk]
    rw [List.drop_drop]
    have hL : (h ++ [r]) ++ rs = h ++ r :: rs := by simp
    rw [hL]
    apply congrArg fun n => List.drop n (h ++ r :: rs)
    simp only [List.length_drop, List.length_append, List.length_cons,
      List.length_singleton]
    omega

lemma freq_ghz_nonneg (m : Metrics) (hf : ∀ f ∈ m.cpu_freq, 0 ≤ f) :
    0 ≤ freq_ghz m := by
  unfold freq_ghz
  cases hm : m.cpu_freq with
  | none => norm_num
  | some f =>
    have hf0 : 0 ≤ f := hf f (by rw [hm]; rfl)
    simp only
    split_ifs
    · norm_num
    · positivity

/-- A fixed history row used as a concrete input in witnesses. -/
def exampleRow : Row :=
  { timestamp := "00:00:00"
    cpu_usage := 0
    memory_percent := 0
    disk_percent := 0
    cpu_power := 0
    mem_power := 0
    disk_power := 0
    total_power := 20 }

/-- The scenario snapshot with the frequency reading unavailable. -/
def noFreqMetrics : Metrics :=
  { scenarioMetrics with cpu_freq := none }

/-- Claim C1, counterexample: at facility power 24.3 W the returned fields are
hourly 9.7 g, daily 0.23 kg, annual 0.085 t, and the returned daily figure is
neither the returned hourly field scaled by 24/1000 nor the unrounded hourly
grams scaled by 24/1000; likewise for the annual field.  The exact scalings do
not hold between the returned fields because each one is rounded separately. -/
theorem emissions_returned_scaling_fails :
    calculate_emissions (some (243 / 10)) =
      some { hourly := 97 / 10, daily := 23 / 100, annual := 17 / 200 } ∧
    ¬ ((23 : ℚ) / 100 = (97 : ℚ) / 10 * 24 / 1000) ∧
    ¬ ((23 : ℚ) / 100 = hourly_co2 (243 / 10) * 24 / 1000) ∧
    ¬ ((17 : ℚ) / 200 = (97 : ℚ) / 10 * 8760 / 1000000) ∧
    ¬ ((17 : ℚ) / 200 = hourly_co2 (243 / 10) * 8760 / 1000000) := by
  refine ⟨?_, by norm_num, ?_, by norm_num, ?_⟩
  · norm_num [calculate_emissions, hourly_co2, GRID_EMISSION_FACTOR, roundTo,
      pythonRound, Emissions.mk.injEq]
  · norm_num [hourly_co2, GRID_EMISSION_FACTOR]
  · norm_num [hourly_co2, GRID_EMISSION_FACTOR]

/-- Claim C1, amended: for nonzero facility power w the unrounded hourly
grams are (w/1000) times the grid factor 400, and the returned fields are the
unrounded hourly, hourly times 24/1000, and hourly times 8760/1000000, rounded
to 1, 2 and 3 decimal places respectively; the exact unit scalings hold
between the unrounded quantities, before the per-field rounding. -/
theorem emissions_scaling_unrounded (w : ℚ) (hw : w ≠ 0) :
    hourly_co2 w = w / 1000 * 400 ∧
    calculate_emissions (some w) =
      some { hourly := roundTo 1 (hourly_co2 w)
             daily := roundTo 2 (hourly_co2 w * 24 / 1000)
             annual := roundTo 3 (hourly_co2 w * 8760 / 1000000) } := by
  have h876 : hourly_co2 w * 24 * 365 / 1000000 = hourly_co2 w * 8760 / 1000000 := by
    ring
  exact ⟨by rw [hourly_co2, GRID_EMISSION_FACTOR], by
    simp [calculate_emissions, hw, h876]⟩

/-- Claim C1 witness: the amended statement instantiated at w = 2. -/
theorem emissions_scaling_unrounded_witness :
    hourly_co2 2 = 2 / 1000 * 400 ∧
    calculate_emissions (some 2) =
      some { hourly := roundTo 1 (hourly_co2 2)
             daily := roundTo 2 (hourly_co2 2 * 24 / 1000)
             annual := roundTo 3 (hourly_co2 2 * 8760 / 1000000) } :=
  emissions_scaling_unrounded 2 (by norm_num)

/-- Claim C2: the anomaly flag is true exactly when more than 10 rows are
retained and the current total facility power strictly exceeds the rolling
mean of the stored total_power column times the factor 1.3 (equivalently,
sum * 1.3 < current * count), and the flag is false whenever at most 10 rows
are retained, in particular below any minimum sample threshold. -/
theorem anomaly_flag_characterization (h : List Row) (c : ℚ) :
    (anomalyFlag h c = true ↔ 10 < h.length ∧ meanTotalPower h * 1.3 < c) ∧
    (anomalyFlag h c = true ↔
      10 < h.length ∧ (h.map Row.total_power).sum * 1.3 < c * h.length) ∧
    (h.length ≤ 10 → anomalyFlag h c = false) := by
  have hbase : anomalyFlag h c = true ↔ 10 < h.length ∧ meanTotalPower h * 1.3 < c := by
    unfold anomalyFlag
    split_ifs with hlen
    · simp [hlen]
    · simp [hlen]
  refine ⟨hbase, ?_, ?_⟩
  · rw [hbase]
    constructor
    · rintro ⟨hlen, hmean⟩
      refine ⟨hlen, ?_⟩
      have hl : (0 : ℚ) < h.length := by
        have h0 : 0 < h.length := by omega
        exact_mod_cast h0
      rw [meanTotalPower, div_mul_eq_mul_div, div_lt_iff₀ hl] at hmean
      linarith
    · rintro ⟨hlen, hsum⟩
      refine ⟨hlen, ?_⟩
      have hl : (0 : ℚ) < h.length := by
        have h0 : 0 < h.length := by omega
        exact_mod_cast h0
      rw [meanTotalPower, div_mul_eq_mul_div, div_lt_iff₀ hl]
      linarith
  · intro hle
    unfold anomalyFlag
    rw [if_neg (by omega)]

/-- Claim C2 witness: with an empty history (0 retained rows, below the
threshold) the flag is false. -/
theorem anomaly_flag_characterization_witness : anomalyFlag [] 0 = false :=
  (anomaly_flag_characterization [] 0).2.2 (by norm_num)

/-- Claim C3: starting from the empty history, after any sequence of appends
the buffer holds at most 60 rows, and after exactly 61 appends the buffer is
the input sequence minus its first record: the first-inserted record has been
evicted and the 60 most recent rows remain in insertion order. -/
theorem history_capacity_fifo (rs : List Row) :
    (rs.foldl appendHist []).length ≤ HISTORY_CAPACITY ∧
    (rs.length = HISTORY_CAPACITY + 1 → rs.foldl appendHist [] = rs.drop 1) := by
  have hf := foldl_appendHist rs [] (by simp)
  rw [List.nil_append] at hf
  constructor
  · rw [hf, List.length_drop]
    unfold HISTORY_CAPACITY
    omega
  · intro h61
    rw [hf, h61]
    norm_num [HISTORY_CAPACITY]

/-- Claim C3 witness: 61 identical appends leave 60 rows, namely the input
minus its first element. -/
theorem history_capacity_fifo_witness :
    ((List.replicate 61 exampleRow).foldl appendHist []).length ≤ HISTORY_CAPACITY ∧
    (List.replicate 61 exampleRow).foldl appendHist [] =
      (List.replicate 61 exampleRow).drop 1 :=
  ⟨(history_capacity_fifo (List.replicate 61 exampleRow)).1,
   (history_capacity_fifo (List.replicate 61 exampleRow)).2
     (by simp [HISTORY_CAPACITY])⟩

/-- Claim C4 counterexample: on the scenario snapshot the code computes
memory power 1.2 W (not 0.7), IT total 18.2 W (not 16.2) and facility power
21.8 W (not 24.3), because the code uses 0.3 W per GB with no utilization
adjustment, a 2 W idle disk constant and PUE 1.2. -/
theorem scenario_spec_values_fail :
    (calculate_power scenarioMetrics).memory ≠ 7 / 10 ∧
    (calculate_power scenarioMetrics).total_it ≠ 81 / 5 ∧
    (calculate_power scenarioMetrics).total_facility ≠ 243 / 10 := by
  norm_num [calculate_power, total_facility_raw, total_it_raw, cpu_power_raw,
    mem_power_raw, disk_power_raw, freq_ghz, scenarioMetrics, roundTo,
    pythonRound, PUE_CLOUD]

/-- Claim C4, amended: on the scenario snapshot the pipeline yields cpu 15.0,
memory 1.2, disk 2, IT total 18.2, facility 21.8 (rounded from 21.84 at
PUE 1.2), and feeding the returned facility figure to the emissions function
yields hourly 8.7 g, daily 0.21 kg, annual 0.076 t. -/
theorem scenario_pipeline_values :
    calculate_power scenarioMetrics =
      { cpu := 15, memory := 6 / 5, disk := 2, total_it := 91 / 5,
        total_facility := 109 / 5, pue := 6 / 5 } ∧
    calculate_emissions (some (calculate_power scenarioMetrics).total_facility) =
      some { hourly := 87 / 10, daily := 21 / 100, annual := 19 / 250 } := by
  norm_num [calculate_power, total_facility_raw, total_it_raw, cpu_power_raw,
    mem_power_raw, disk_power_raw, freq_ghz, scenarioMetrics, roundTo,
    pythonRound, PUE_CLOUD, calculate_emissions, hourly_co2,
    GRID_EMISSION_FACTOR, Power.mk.injEq, Emissions.mk.injEq]

/-- Claim C5 counterexample: at facility power 0, a valid non-negative input,
the Python truthiness guard `if not power_w` makes the function return None
rather than an estimate. -/
theorem emissions_zero_returns_none : calculate_emissions (some 0) = none := by
  simp [calculate_emissions]

/-- Claim C5, amended: the emissions function returns an estimate for every
strictly positive facility power; only 0 (and an absent input) gives None. -/
theorem emissions_total_on_pos (w : ℚ) (hw : 0 < w) :
    (calculate_emissions (some w)).isSome = true := by
  simp [calculate_emissions, hw.ne']

/-- Claim C5 witness: the amended statement at w = 1. -/
theorem emissions_total_on_pos_witness :
    (calculate_emissions (some 1)).isSome = true :=
  emissions_total_on_pos 1 (by norm_num)

/-- Claim C6 counterexample: on the scenario snapshot the total_power value
stored in the history row is the rounded 21.8, not the full-precision
facility power 21.84; history statistics therefore see rounded values. -/
theorem history_row_rounded_counterexample :
    (makeRow scenarioMetrics (calculate_power scenarioMetrics)).total_power ≠
      total_facility_raw scenarioMetrics := by
  norm_num [makeRow, calculate_power, total_facility_raw, total_it_raw,
    cpu_power_raw, mem_power_raw, disk_power_raw, freq_ghz, scenarioMetrics,
    roundTo, pythonRound, PUE_CLOUD]

/-- Claim C6, amended: the history row stores exactly the one-decimal rounded
power figures from the calculate_power dict, the same values used for
display, for every snapshot; full unrounded precision is not retained. -/
theorem history_stores_display_rounding (m : Metrics) :
    (makeRow m (calculate_power m)).total_power = roundTo 1 (total_facility_raw m) ∧
    (makeRow m (calculate_power m)).cpu_power = roundTo 1 (cpu_power_raw m) ∧
    (makeRow m (calculate_power m)).mem_power = roundTo 1 (mem_power_raw m) ∧
    (makeRow m (calculate_power m)).disk_power = roundTo 1 (disk_power_raw m) :=
  ⟨rfl, rfl, rfl, rfl⟩

/-- Claim C7: when the frequency reading is absent the estimator substitutes
the 2.5 GHz fallback in the cpu term and still returns a power estimate. -/
theorem cpu_freq_fallback (m : Metrics) (hf : m.cpu_freq = none) :
    freq_ghz m = 2.5 ∧
    (calculate_power m).cpu = roundTo 1 (m.cpu_usage / 100 * 2.5 * 15) := by
  have h1 : freq_ghz m = 2.5 := by simp [freq_ghz, hf]
  exact ⟨h1, by simp [calculate_power, cpu_power_raw, h1]⟩

/-- Claim C7 witness: the fallback on the scenario snapshot with the
frequency removed. -/
theorem cpu_freq_fallback_witness :
    freq_ghz noFreqMetrics = 2.5 ∧
    (calculate_power noFreqMetrics).cpu =
      roundTo 1 (noFreqMetrics.cpu_usage / 100 * 2.5 * 15) :=
  cpu_freq_fallback noFreqMetrics rfl

/-- Claim C8: with all other fields fixed and a non-negative frequency
reading, a larger cpu usage in [0, 100] never yields a smaller cpu_watts. -/
theorem cpu_watts_monotone (m : Metrics) (u₁ u₂ : ℚ) (h1 : 0 ≤ u₁)
    (h12 : u₁ ≤ u₂) (h2 : u₂ ≤ 100) (hf : ∀ f ∈ m.cpu_freq, 0 ≤ f) :
    (calculate_power { m with cpu_usage := u₁ }).cpu ≤
      (calculate_power { m with cpu_usage := u₂ }).cpu := by
  apply roundTo_mono
  have hg : 0 ≤ freq_ghz m := freq_ghz_nonneg m hf
  have e1 : cpu_power_raw { m with cpu_usage := u₁ } = u₁ / 100 * freq_ghz m * 15 := rfl
  have e2 : cpu_power_raw { m with cpu_usage := u₂ } = u₂ / 100 * freq_ghz m * 15 := rfl
  rw [e1, e2]
  have hd : u₁ / 100 ≤ u₂ / 100 := by linarith
  exact mul_le_mul_of_nonneg_right
    (mul_le_mul_of_nonneg_right hd hg) (by norm_num)

/-- Claim C8 witness: usage 30 versus 70 on the scenario snapshot. -/
theorem cpu_watts_monotone_witness :
    (calculate_power { scenarioMetrics with cpu_usage := 30 }).cpu ≤
      (calculate_power { scenarioMetrics with cpu_usage := 70 }).cpu :=
  cpu_watts_monotone scenarioMetrics 30 70 (by norm_num) (by norm_num)
    (by norm_num) (by norm_num [scenarioMetrics, Option.mem_def])

/-- Claim C9: with non-negative usage, memory and frequency fields, the
returned rounded facility power is at least the returned rounded IT power,
since PUE 1.2 is at least 1 and rounding is monotone. -/
theorem facility_ge_it (m : Metrics) (hu : 0 ≤ m.cpu_usage)
    (hmem : 0 ≤ m.memory_used) (hf : ∀ f ∈ m.cpu_freq, 0 ≤ f) :
    (calculate_power m).total_it ≤ (calculate_power m).total_facility := by
  apply roundTo_mono
  have hg : 0 ≤ freq_ghz m := freq_ghz_nonneg m hf
  have hit : 0 ≤ total_it_raw m := by
    unfold total_it_raw cpu_power_raw mem_power_raw disk_power_raw
    have hc : 0 ≤ m.cpu_usage / 100 * freq_ghz m * 15 :=
      mul_nonneg (mul_nonneg (div_nonneg hu (by norm_num)) hg) (by norm_num)
    have hm2 : 0 ≤ m.memory_used * (0.3 : ℚ) := mul_nonneg hmem (by norm_num)
    split_ifs <;> linarith
  unfold total_facility_raw PUE_CLOUD
  linarith

/-- Claim C9 witness: the invariant at the scenario snapshot. -/
theorem facility_ge_it_witness :
    (calculate_power scenarioMetrics).total_it ≤
      (calculate_power scenarioMetrics).total_facility :=
  facility_ge_it scenarioMetrics (by norm_num [scenarioMetrics])
    (by norm_num [scenarioMetrics]) (by norm_num [scenarioMetrics, Option.mem_def])

/-- Claim C10: in a tick of the main loop the new row is appended to the
history before the anomaly test, the current row is among the retained rows,
and the flag is exactly the anomaly test on the post-append history against
the rounded facility power, so the rolling mean includes the current tick. -/
theorem tick_appends_then_tests (h : List Row) (m : Metrics) :
    (tick h m).1 = appendHist h (makeRow m (calculate_power m)) ∧
    makeRow m (calculate_power m) ∈ (tick h m).1 ∧
    (tick h m).2 =
      anomalyFlag (appendHist h (makeRow m (calculate_power m)))
        (calculate_power m).total_facility := by
  refine ⟨rfl, ?_, rfl⟩
  exact mem_appendHist h (makeRow m (calculate_power m))
